import Mathlib

/-!
A shallow embedding of `updblock.py`, a text block updater.  The embedding
covers the configuration-attribute layer (`IniListAttribute`,
`IniValueAttribute`, `IniBoolAttribute`, `IniAttributeSection`, `IniSection`,
`Config.parse`) and the rendering core (`determine_length`, `generate_block`,
`apply_block`).

Conventions of the embedding:
* Python strings are Lean `String`s; character-level operations
  (`str.split`, `str.strip`, `str.lower`, `str.replace`, `str.startswith`)
  are modelled by executable functions on `String.data` so that every
  definition evaluates inside the kernel.  The separators actually used by
  the source are single characters (the list separator is `","`, the
  attribute-name rewrite replaces `"-"` by `"_"`), so the helpers take a
  `Char` where the source passes a one-character string.
* Fallible Python code (IndexError from `filler[0]` on an empty filler,
  ValueError from `max()` over an empty payload, KeyError from the config
  parser, TypeError from `IniSection.items`) is modelled with
  `Option`/`Except` results.
* The source computes the centering split with Python `/`; the program
  targets Python 2 integer division (under Python 3 the float result would
  make `char * part` raise), so `filler / 2` is embedded as `Nat` floor
  division, the semantics the spec fixes as intended.
* `re.compile(pattern).match(line)` results are modelled by an abstract
  matcher `String → Bool` passed to `apply_block`: regular-expression
  semantics belongs to Python's `re` library, an external collaborator;
  the scanner only consumes the Boolean outcome of each anchored match.
-/

namespace Updblock

/-- `" " * n`: a run of `n` space characters. -/
def spaces (n : Nat) : String := String.mk (List.replicate n ' ')

/-- `char * n`: a run of `n` copies of one character. -/
def repChar (c : Char) (n : Nat) : String := String.mk (List.replicate n c)

/-- Python `str.strip()` on a character list: drop whitespace at both ends. -/
def trimChars (l : List Char) : List Char :=
  ((l.dropWhile Char.isWhitespace).reverse.dropWhile Char.isWhitespace).reverse

/-- Worker for `strSplit`: split at every occurrence of `sep`. -/
def splitAux (sep : Char) : List Char → List Char → List (List Char)
  | [], acc => [acc.reverse]
  | c :: rest, acc =>
    if c = sep then acc.reverse :: splitAux sep rest []
    else splitAux sep rest (c :: acc)

/-- Python `value.split(sep)` for a one-character separator. -/
def strSplit (sep : Char) (s : String) : List String :=
  (splitAux sep s.data []).map String.mk

/-- Python `value.strip()`. -/
def strTrim (s : String) : String := String.mk (trimChars s.data)

/-- Is `p` a leading segment of `s`?  (Bool-valued, used for the sample
regex matchers standing in for anchored `re.match` calls.) -/
def isPre : List Char → List Char → Bool
  | [], _ => true
  | _ :: _, [] => false
  | p :: ps, c :: cs => p = c && isPre ps cs

/-- Python `s.startswith(p)`. -/
def strStarts (s p : String) : Bool := isPre p.data s.data

/-- Python `s.lower()`. -/
def strLower (s : String) : String := String.mk (s.data.map Char.toLower)

/-- Python `key.replace("-", "_")`. -/
def dashToUnderscore (s : String) : String :=
  String.mk (s.data.map (fun c => if c = '-' then '_' else c))

/-- The pieces appended by one `IniListAttribute.set(value)` call:
`value.split(sep)`, each part stripped, empty parts discarded
(`i.strip() for i in value.split(self._sep) if i.strip()`). -/
def listParts (sep : Char) (v : String) : List String :=
  (strSplit sep v).filterMap (fun i => if strTrim i = "" then none else some (strTrim i))

namespace IniListAttribute

/-- `IniListAttribute.set`: extend the stored list with the new parts. -/
def set (sep : Char) (value : List String) (v : String) : List String :=
  value ++ listParts sep v

/-- `IniListAttribute.get`: `list(self._value)` — a copy of the stored list;
observationally the stored list itself. -/
def get (value : List String) : List String := value

end IniListAttribute

/-- `IniValueAttribute.get`: strip one pair of surrounding double quotes
when the stored string both starts and ends with `"`. -/
def iniValueGet (v : String) : String :=
  match v.data with
  | [] => v
  | c :: _ =>
    if c = '"' ∧ v.data.getLast? = some '"' then
      String.mk (v.data.drop 1).dropLast
    else v

/-- `IniBoolAttribute.set` coercion:
`value.strip().lower() not in ("0", "false", "no", "off")`. -/
def iniBoolCoerce (v : String) : Bool :=
  decide (strLower (strTrim v) ∉ (["0", "false", "no", "off"] : List String))

/-- The state of one configuration attribute.  The three Python classes
`IniListAttribute` / `IniValueAttribute` / `IniBoolAttribute` become the
three constructors; the stored `_value` is the constructor argument.
The numeric Python defaults (`80`, `1`) are stored as their decimal
strings, the form every later read (`int(attr.get())`) observes. -/
inductive IniAttr where
  | list : List String → IniAttr
  | value : String → IniAttr
  | bool : Bool → IniAttr
deriving DecidableEq

/-- `set` on one attribute, by variant (list separator fixed to `,`,
the only separator the source constructs). -/
def IniAttr.set : IniAttr → String → IniAttr
  | .list xs, v => .list (IniListAttribute.set ',' xs v)
  | .value _, v => .value v
  | .bool _, v => .bool (iniBoolCoerce v)

/-- Look up attribute `aname` in the fixed attribute table and apply
`set value` to it in place; `none` when the attribute is absent. -/
def attrTableSet : List (String × IniAttr) → String → String → Option (List (String × IniAttr))
  | [], _, _ => none
  | (k, a) :: rest, aname, v =>
    if k = aname then some ((k, a.set v) :: rest)
    else (attrTableSet rest aname v).map ((k, a) :: ·)

/-- `IniAttributeSection.update(section)`: for each `(key, value)` pair,
normalize the key (`-` → `_`), look the attribute up, `set` it; an unknown
key raises `KeyError("Invalid attribute: {key}")`. -/
def IniAttributeSection.update (attrs : List (String × IniAttr))
    (pairs : List (String × String)) : Except String (List (String × IniAttr)) :=
  pairs.foldlM (fun acc kv =>
    match attrTableSet acc (dashToUnderscore kv.1) kv.2 with
    | some acc2 => Except.ok acc2
    | none => Except.error ("Invalid attribute: " ++ kv.1)) attrs

/-- The attribute table a fresh `ConfigFileType()` declares, with the
declared defaults. -/
def ConfigFileType.init : List (String × IniAttr) :=
  [("extensions", .list []),
   ("line_minlength", .value "80"),
   ("line_padding", .value "1"),
   ("firstline_start", .value ""),
   ("firstline_end", .value ""),
   ("firstline_prepad", .value " "),
   ("firstline_postpad", .value " "),
   ("firstline_filler", .value "#"),
   ("firstline_center", .bool true),
   ("lastline_start", .value ""),
   ("lastline_end", .value ""),
   ("lastline_prepad", .value " "),
   ("lastline_postpad", .value " "),
   ("lastline_filler", .value "#"),
   ("lastline_center", .bool true),
   ("midline_start", .value ""),
   ("midline_end", .value ""),
   ("midline_prepad", .value " "),
   ("midline_postpad", .value " "),
   ("midline_center", .bool false)]

/-- The attribute table a fresh `ConfigBlock()` declares. -/
def ConfigBlock.init : List (String × IniAttr) :=
  [("start_pattern", .value ""),
   ("end_pattern", .value ""),
   ("start", .value ""),
   ("end", .value "")]

/-- The attribute table a fresh `ConfigAction()` declares. -/
def ConfigAction.init : List (String × IniAttr) :=
  [("filetype", .list []),
   ("text", .value ""),
   ("block", .value "")]

namespace IniSection

/-- One step of `IniSection.update`: on first sight of `key` the factory
creates a fresh `IniValueAttribute("")` (the `ConfigTextFiles` factory) and
`set(value)` replaces its default; a repeated key mutates the existing
instance in place, keeping its position. -/
def upsert : List (String × String) → String → String → List (String × String)
  | [], k, v => [(k, v)]
  | (k0, v0) :: rest, k, v =>
    if k0 = k then (k0, v) :: rest else (k0, v0) :: upsert rest k v

/-- `IniSection.update(section)`: apply `upsert` pair by pair. -/
def update (results : List (String × String)) (pairs : List (String × String)) :
    List (String × String) :=
  pairs.foldl (fun r kv => upsert r kv.1 kv.2) results

/-- `IniSection.items` as the source executes it:
`list((i, j()) for (i, j) in self._results.items())`.  `j` is the stored
`IniValueAttribute` instance and is not callable, so the first element of a
non-empty registry raises `TypeError`; only the empty registry yields a
(trivial) snapshot. -/
def itemsCode (results : List (String × String)) :
    Except String (List (String × String)) :=
  match results with
  | [] => Except.ok []
  | _ :: _ => Except.error "TypeError: IniValueAttribute object is not callable"

/-- Modelled from the spec: the snapshot `items()` is specified to return —
the `(key, resolved-value)` pairs, each value read through
`IniValueAttribute.get` — i.e. the source's `list((i, j.get()) for ...)`. -/
def itemsIntended (results : List (String × String)) : List (String × String) :=
  results.map (fun kv => (kv.1, iniValueGet kv.2))

end IniSection

/-- The `Config` registries, after zero or more parsed sections. -/
structure Config where
  filetypes : List (String × List (String × IniAttr))
  blocks : List (String × List (String × IniAttr))
  actions : List (String × List (String × IniAttr))
  textblocks : List (String × String)
  textfiles : List (String × String)

/-- `Config.__init__`: all registries empty. -/
def Config.empty : Config := ⟨[], [], [], [], []⟩

/-- Python dict read `d.get(name)`. -/
def lookupNamed (m : List (String × List (String × IniAttr))) (name : String) :
    Option (List (String × IniAttr)) :=
  match m with
  | [] => none
  | (k, v) :: rest => if k = name then some v else lookupNamed rest name

/-- Python dict write `d[name] = v`: replace in place, or append a new key. -/
def storeNamed (m : List (String × List (String × IniAttr))) (name : String)
    (v : List (String × IniAttr)) : List (String × List (String × IniAttr)) :=
  match m with
  | [] => [(name, v)]
  | (k, v0) :: rest =>
    if k = name then (k, v) :: rest else (k, v0) :: storeNamed rest name v

/-- Dispatch one configuration section, as `Config.parse` does per section.
A section is its header paired with its `(key, value)` items.  The final
arm reproduces the source verbatim: it raises
`KeyError("Unknown section: {0}".format("section"))`, formatting the
literal string `"section"`, not the section name. -/
def Config.parseSection (c : Config) (sect : String × List (String × String)) :
    Except String Config :=
  if strStarts sect.1 "filetype:" then
    let name := sect.1.drop 9
    let cur := (lookupNamed c.filetypes name).getD ConfigFileType.init
    match IniAttributeSection.update cur sect.2 with
    | Except.ok st => Except.ok { c with filetypes := storeNamed c.filetypes name st }
    | Except.error e => Except.error e
  else if strStarts sect.1 "block:" then
    let name := sect.1.drop 6
    let cur := (lookupNamed c.blocks name).getD ConfigBlock.init
    match IniAttributeSection.update cur sect.2 with
    | Except.ok st => Except.ok { c with blocks := storeNamed c.blocks name st }
    | Except.error e => Except.error e
  else if strStarts sect.1 "action:" then
    let name := sect.1.drop 7
    let cur := (lookupNamed c.actions name).getD ConfigAction.init
    match IniAttributeSection.update cur sect.2 with
    | Except.ok st => Except.ok { c with actions := storeNamed c.actions name st }
    | Except.error e => Except.error e
  else if sect.1 = "text-blocks" then
    Except.ok { c with textblocks := IniSection.update c.textblocks sect.2 }
  else if sect.1 = "text-files" then
    Except.ok { c with textfiles := IniSection.update c.textfiles sect.2 }
  else
    Except.error ("Unknown section: " ++ "section")

/-- `Config.parse`: fold `parseSection` over every section of the
configuration source (the sections as `configparser` would hand them over). -/
def Config.parse (c : Config) (sections : List (String × List (String × String))) :
    Except String Config :=
  sections.foldlM Config.parseSection c

/-- A resolved `FileType` descriptor: the values the renderer reads through
`attr.get()` (with `int()` applied to the two numeric fields). -/
structure FileType where
  line_minlength : Nat
  line_padding : Nat
  firstline_start : String
  firstline_end : String
  firstline_prepad : String
  firstline_postpad : String
  firstline_filler : String
  firstline_center : Bool
  lastline_start : String
  lastline_end : String
  lastline_prepad : String
  lastline_postpad : String
  lastline_filler : String
  lastline_center : Bool
  midline_start : String
  midline_end : String
  midline_center : Bool

/-- A resolved `Block` descriptor: the literal marker texts embedded in the
rendered first/last lines (the detection patterns live in the matchers
passed to `apply_block`). -/
structure Block where
  start : String
  end_ : String

/-- `determine_length(filetype, block, license)`.  `max()` over the payload
line lengths raises `ValueError` on an empty payload, hence the `Option`. -/
def determine_length (ft : FileType) (b : Block) (license : List String) : Option Nat :=
  let firstline_len :=
    ft.firstline_start.length + ft.firstline_end.length +
    ft.firstline_prepad.length + ft.firstline_postpad.length + b.start.length
  let lastline_len :=
    ft.lastline_start.length + ft.lastline_end.length +
    ft.lastline_prepad.length + ft.lastline_postpad.length + b.end_.length
  match (license.map String.length).max? with
  | none => none
  | some liclen =>
    let midline_len := ft.midline_start.length + ft.midline_end.length + liclen
    some (max (max (max firstline_len midline_len) lastline_len) ft.line_minlength)

/-- The first-line part list after filler distribution
(`firstline = [start, leftGap, prepad, block.start, postpad, rightGap, end]`).
`none` models the IndexError from `filler.get()[0]` when the filler string
is empty and filling is required. -/
def firstlineParts (ft : FileType) (b : Block) (length : Nat) : Option (List String) :=
  let parts : List String :=
    [ft.firstline_start, "", ft.firstline_prepad, b.start, ft.firstline_postpad, "",
     ft.firstline_end]
  let total := (parts.map String.length).sum
  if total < length then
    match ft.firstline_filler.data with
    | [] => none
    | char :: _ =>
      let filler := length - total
      let part := if ft.firstline_center then filler / 2 else 0
      let filler2 := filler - part
      some [ft.firstline_start, repChar char part, ft.firstline_prepad, b.start,
            ft.firstline_postpad, if 0 < filler2 then repChar char filler2 else "",
            ft.firstline_end]
  else
    some parts

/-- The last-line part list, symmetric to `firstlineParts` with the
`lastline_*` attributes and `block.end`. -/
def lastlineParts (ft : FileType) (b : Block) (length : Nat) : Option (List String) :=
  let parts : List String :=
    [ft.lastline_start, "", ft.lastline_prepad, b.end_, ft.lastline_postpad, "",
     ft.lastline_end]
  let total := (parts.map String.length).sum
  if total < length then
    match ft.lastline_filler.data with
    | [] => none
    | char :: _ =>
      let filler := length - total
      let part := if ft.lastline_center then filler / 2 else 0
      let filler2 := filler - part
      some [ft.lastline_start, repChar char part, ft.lastline_prepad, b.end_,
            ft.lastline_postpad, if 0 < filler2 then repChar char filler2 else "",
            ft.lastline_end]
  else
    some parts

/-- The padding-line part list (`padline = [start, gap, end]`); the gap is
filled with spaces only when it is short of the width and `midline_end` is
non-empty. -/
def padlineParts (ft : FileType) (length : Nat) : List String :=
  let total := ft.midline_start.length + ft.midline_end.length
  if total < length ∧ ft.midline_end ≠ "" then
    [ft.midline_start, spaces (length - total), ft.midline_end]
  else
    [ft.midline_start, "", ft.midline_end]

/-- The part list for one payload line
(`midline = [start, leftGap, line, rightGap, end]`).  Gap computation only
triggers when `midline_end` is non-empty or `midline_center` is set; the
left gap is filled only when centering and (an end decoration exists or the
line is non-empty); the right gap only when the remainder is positive and
an end decoration exists. -/
def midlineParts (ft : FileType) (length : Nat) (line : String) : List String :=
  let total := ft.midline_start.length + line.length + ft.midline_end.length
  if (ft.midline_end ≠ "" ∨ ft.midline_center) ∧ total < length then
    let filler := length - total
    let part := if ft.midline_center ∧ (ft.midline_end ≠ "" ∨ line ≠ "") then filler / 2
                else 0
    let filler2 := filler - part
    [ft.midline_start, spaces part, line,
     if 0 < filler2 ∧ ft.midline_end ≠ "" then spaces filler2 else "",
     ft.midline_end]
  else
    [ft.midline_start, "", line, "", ft.midline_end]

/-- `generate_block(filetype, block, license)`: the printed lines, in
order — first line, `line_padding` padding lines, one middle line per
payload line, `line_padding` padding lines, last line.  `none` models the
exceptions (`determine_length` on an empty payload, `filler[0]` on an
empty filler string). -/
def generate_block (ft : FileType) (b : Block) (license : List String) :
    Option (List String) :=
  match determine_length ft b license with
  | none => none
  | some length =>
    match firstlineParts ft b length, lastlineParts ft b length with
    | some fl, some ll =>
      let padline := String.join (padlineParts ft length)
      some ([String.join fl] ++ List.replicate ft.line_padding padline ++
        license.map (fun line => String.join (midlineParts ft length line)) ++
        List.replicate ft.line_padding padline ++ [String.join ll])
    | _, _ => none

/-- The scanner loop of `apply_block`.  `reS`/`reE` are the anchored-match
outcomes of the compiled `start_pattern`/`end_pattern`; `gen` is the
rendered block (demanded exactly when a block boundary forces a render);
the Bool is the `in_block` state. -/
def apply_go (reS reE : String → Bool) (gen : Option (List String)) :
    List String → Bool → Option (List String)
  | [], true => gen
  | [], false => some []
  | line :: rest, true =>
    if reE line then
      gen.bind (fun bl => (apply_go reS reE gen rest false).map (fun out => bl ++ out))
    else
      apply_go reS reE gen rest true
  | line :: rest, false =>
    if reS line then apply_go reS reE gen rest true
    else (apply_go reS reE gen rest false).map (fun out => line :: out)

/-- `apply_block(handle, filetype, block, license)`: stream the input lines
through the two-state scanner, substituting the rendered block. -/
def apply_block (reS reE : String → Bool) (ft : FileType) (b : Block)
    (license : List String) (input : List String) : Option (List String) :=
  apply_go reS reE (generate_block ft b license) input false

/-! ### Concrete sample descriptors used by witnesses and counterexamples -/

/-- Sample filetype: width 10, no padding lines, plain uncentered first and
last lines, centered middle lines with no end decoration. -/
def ftA : FileType :=
  { line_minlength := 10, line_padding := 0,
    firstline_start := "", firstline_end := "", firstline_prepad := " ",
    firstline_postpad := " ", firstline_filler := "#", firstline_center := false,
    lastline_start := "", lastline_end := "", lastline_prepad := " ",
    lastline_postpad := " ", lastline_filler := "#", lastline_center := false,
    midline_start := "", midline_end := "", midline_center := true }

/-- `ftA` with one padding line and uncentered middle lines. -/
def ftB : FileType := { ftA with line_padding := 1, midline_center := false }

/-- `ftA` with a centered first line. -/
def ftC : FileType := { ftA with firstline_center := true }

/-- Sample filetype with an end decoration on middle lines. -/
def ftW : FileType :=
  { ftA with
    line_padding := 1, midline_end := "|", midline_center := false,
    firstline_center := true, lastline_center := true }

/-- Sample filetype whose rendered first line begins with `#` while the
rendered last line does not. -/
def ft7 : FileType :=
  { ftA with
    firstline_start := "#", lastline_filler := "=", midline_center := false }

/-- Sample block markers. -/
def blkA : Block := { start := "S", end_ := "E" }

/-- Matcher for the literal regex `S` anchored at line start is irrelevant
here; this matcher accepts exactly the line `"S"` (regex `S$`). -/
def eqS (l : String) : Bool := l == "S"

/-- Matcher accepting exactly the line `"E"` (regex `E$`). -/
def eqE (l : String) : Bool := l == "E"

/-- Matcher for the anchored regex `#`: any line starting with `#`. -/
def reS7 (l : String) : Bool := strStarts l "#"

/-- Matcher accepting exactly the line `"E"`. -/
def reE7 (l : String) : Bool := l == "E"

/-- Matcher for the anchored regex ` E`: any line starting with `" E"`. -/
def reE7b (l : String) : Bool := strStarts l " E"

/-! ### Helper lemmas -/

theorem length_mk (l : List Char) : (String.mk l).length = l.length := rfl

theorem length_spaces (n : Nat) : (spaces n).length = n := by
  simp [spaces, length_mk]

theorem length_repChar (c : Char) (n : Nat) : (repChar c n).length = n := by
  simp [repChar, length_mk]

theorem length_foldl_append (l : List String) (a : String) :
    (l.foldl (fun r s => r ++ s) a).length = a.length + (l.map String.length).sum := by
  induction l generalizing a with
  | nil => simp
  | cons x xs ih =>
    simp only [List.foldl_cons, List.map_cons, List.sum_cons, ih, String.length_append]
    omega

theorem length_join (l : List String) :
    (String.join l).length = (l.map String.length).sum := by
  simpa [String.join] using length_foldl_append l ""

theorem data_eq_nil {s : String} (h : s.data = []) : s = "" := by
  cases s with
  | mk d => cases h; rfl

theorem foldl_max_init_le (l : List Nat) (a : Nat) : a ≤ l.foldl max a := by
  induction l generalizing a with
  | nil => simp
  | cons x xs ih => exact le_trans (le_max_left a x) (ih (max a x))

theorem foldl_max_mem_le (l : List Nat) (a x : Nat) (hx : x ∈ l) : x ≤ l.foldl max a := by
  induction l generalizing a with
  | nil => cases hx
  | cons y ys ih =>
    rcases List.mem_cons.mp hx with h | h
    · subst h
      exact le_trans (le_max_right a x) (foldl_max_init_le ys (max a x))
    · exact ih (max a y) h

theorem foldl_max_attained (l : List Nat) (a : Nat) :
    l.foldl max a = a ∨ l.foldl max a ∈ l := by
  induction l generalizing a with
  | nil => exact Or.inl rfl
  | cons x xs ih =>
    rcases ih (max a x) with h | h
    · rcases max_choice a x with hm | hm
      · exact Or.inl (by rw [List.foldl_cons, h, hm])
      · exact Or.inr (by rw [List.foldl_cons, h, hm]; exact List.mem_cons_self x xs)
    · exact Or.inr (List.mem_cons_of_mem x h)

/-! ### Claim C10 -/

/-- C10: `determine_length` is undefined for an empty payload (`max()` over
an empty collection raises), and `generate_block`, which computes the width
first, fails as well before producing any output line. -/
theorem c10_empty_payload (ft : FileType) (b : Block) :
    determine_length ft b [] = none ∧ generate_block ft b [] = none := ⟨rfl, rfl⟩

/-! ### Claim C5 -/

/-- C5: on an unrecognized section header the parse fails, but the raised
message is the constant `"Unknown section: section"` — the source formats
the literal string `"section"` instead of the section name — so the error
for `[bogus:x]` does not identify `"bogus:x"` (two different offending
headers produce the identical message). -/
theorem c5_unknown_section_not_identified :
    Config.parse Config.empty [("bogus:x", [])] =
      Except.error "Unknown section: section" ∧
    Config.parse Config.empty [("other:y", [])] =
      Except.error "Unknown section: section" := ⟨rfl, rfl⟩

/-! ### Claim C6 -/

/-- C6: `IniSection.update` creates an entry on first sight of a key and
mutates that same entry (in place, position kept) on repeats, but `items()`
as written calls the stored attribute object itself (`j()` instead of
`j.get()`), so any non-empty registry raises `TypeError` instead of
returning the `(key, value)` snapshot the spec describes; only the empty
registry escapes. -/
theorem c6_inisection_first_sight_and_items_bug :
    IniSection.update [] [("a", "v")] = [("a", "v")] ∧
    IniSection.update [("a", "v")] [("a", "v2"), ("b", "w")] = [("a", "v2"), ("b", "w")] ∧
    IniSection.itemsIntended [("a", "v2"), ("b", "w")] = [("a", "v2"), ("b", "w")] ∧
    IniSection.itemsCode [("a", "v2"), ("b", "w")] =
      Except.error "TypeError: IniValueAttribute object is not callable" ∧
    IniSection.itemsCode ([] : List (String × String)) = Except.ok [] :=
  ⟨rfl, rfl, rfl, rfl, rfl⟩

/-! ### Claim C9 -/

theorem filterMap_trim_eq (l : List String) :
    l.filterMap (fun i => if strTrim i = "" then none else some (strTrim i)) =
      (l.map strTrim).filter (fun s => s != "") := by
  induction l with
  | nil => rfl
  | cons x xs ih =>
    by_cases h : strTrim x = "" <;>
      simp [List.filterMap_cons, List.filter_cons, h, ih]

/-- C9: each `IniListAttribute.set(value)` call splits on the separator,
trims each part, discards empty parts, and appends in order to the stored
list; calls accumulate in call order (`set("a, b")` then `set("c")` gives
`["a", "b", "c"]`), and `get` returns the stored list. -/
theorem c9_list_attribute_accumulate :
    (∀ (st : List String) (v : String),
      IniListAttribute.set ',' st v =
        st ++ ((strSplit ',' v).map strTrim).filter (fun s => s != "")) ∧
    IniListAttribute.get
        (IniListAttribute.set ',' (IniListAttribute.set ',' [] "a, b") "c") =
      ["a", "b", "c"] ∧
    ∀ (st : List String), IniListAttribute.get st = st := by
  refine ⟨fun st v => ?_, by decide, fun st => rfl⟩
  rw [IniListAttribute.set, listParts, filterMap_trim_eq]

/-! ### Claim C3 -/

/-- C3: `determine_length` returns the maximum of the first-line furniture
width, the middle width (`midline_start` + `midline_end` + the longest
payload line by character count), the last-line furniture width, and
`line_minlength`. -/
theorem c3_determine_length_max (ft : FileType) (b : Block) (license : List String)
    (h : license ≠ []) :
    ∃ liclen, (license.map String.length).max? = some liclen ∧
      (∀ line ∈ license, line.length ≤ liclen) ∧
      (∃ line ∈ license, line.length = liclen) ∧
      determine_length ft b license =
        some (max (max (max
          (ft.firstline_start.length + ft.firstline_end.length +
            ft.firstline_prepad.length + ft.firstline_postpad.length + b.start.length)
          (ft.midline_start.length + ft.midline_end.length + liclen))
          (ft.lastline_start.length + ft.lastline_end.length +
            ft.lastline_prepad.length + ft.lastline_postpad.length + b.end_.length))
          ft.line_minlength) := by
  cases license with
  | nil => exact absurd rfl h
  | cons x xs =>
    refine ⟨(xs.map String.length).foldl max x.length, rfl, ?_, ?_, rfl⟩
    · intro line hl
      rcases List.mem_cons.mp hl with h | h
      · subst h
        exact foldl_max_init_le (xs.map String.length) line.length
      · exact foldl_max_mem_le (xs.map String.length) x.length line.length
          (List.mem_map_of_mem String.length h)
    · rcases foldl_max_attained (xs.map String.length) x.length with h | h
      · exact ⟨x, List.mem_cons_self x xs, h.symm⟩
      · rcases List.mem_map.mp h with ⟨line, hline, hlen⟩
        exact ⟨line, List.mem_cons_of_mem x hline, hlen⟩

/-- Witness for C3 at a concrete triple. -/
theorem c3_determine_length_max_witness :
    ∃ liclen, ((["ab"] : List String).map String.length).max? = some liclen ∧
      (∀ line ∈ (["ab"] : List String), line.length ≤ liclen) ∧
      (∃ line ∈ (["ab"] : List String), line.length = liclen) ∧
      determine_length ftA blkA ["ab"] =
        some (max (max (max
          (ftA.firstline_start.length + ftA.firstline_end.length +
            ftA.firstline_prepad.length + ftA.firstline_postpad.length +
            blkA.start.length)
          (ftA.midline_start.length + ftA.midline_end.length + liclen))
          (ftA.lastline_start.length + ftA.lastline_end.length +
            ftA.lastline_prepad.length + ftA.lastline_postpad.length +
            blkA.end_.length))
          ftA.line_minlength) :=
  c3_determine_length_max ftA blkA ["ab"] (by decide)

/-! ### Scanner lemmas -/

theorem apply_go_pass (reS reE : String → Bool) (gen : Option (List String))
    (A rest : List String) (hA : ∀ a ∈ A, reS a = false) :
    apply_go reS reE gen (A ++ rest) false =
      (apply_go reS reE gen rest false).map (fun out => A ++ out) := by
  induction A with
  | nil => cases h : apply_go reS reE gen rest false <;> simp [h]
  | cons a as ih =>
    have ha : reS a = false := hA a (List.mem_cons_self a as)
    have ih2 := ih (fun x hx => hA x (List.mem_cons_of_mem a hx))
    simp only [List.cons_append, apply_go, ha, Bool.false_eq_true, if_false,
      List.append_eq]
    rw [ih2]
    cases apply_go reS reE gen rest false <;> simp

theorem apply_go_consume (reS reE : String → Bool) (gen : Option (List String))
    (M rest : List String) (hM : ∀ m ∈ M, reE m = false) :
    apply_go reS reE gen (M ++ rest) true = apply_go reS reE gen rest true := by
  induction M with
  | nil => rfl
  | cons m ms ih =>
    have hm : reE m = false := hM m (List.mem_cons_self m ms)
    simp only [List.cons_append, apply_go, hm, Bool.false_eq_true, if_false]
    exact ih (fun x hx => hM x (List.mem_cons_of_mem m hx))

theorem apply_go_drain (reS reE : String → Bool) (gen : Option (List String))
    (B : List String) (hB : ∀ x ∈ B, reE x = false) :
    apply_go reS reE gen B true = gen := by
  simpa [apply_go] using apply_go_consume reS reE gen B [] hB

theorem apply_go_allpass (reS reE : String → Bool) (gen : Option (List String))
    (B : List String) (hB : ∀ x ∈ B, reS x = false) :
    apply_go reS reE gen B false = some B := by
  simpa [apply_go] using apply_go_pass reS reE gen B [] hB

/-! ### Claim C4 -/

/-- Counterexample to C4 as stated: the input `["S", "E", "S"]` contains a
line (the third) matching the start pattern with no subsequent line
matching the end pattern, yet the rendered block is emitted twice, not
exactly once after the pass-through prefix. -/
theorem c4_unterminated_cex :
    eqS "S" = true ∧ eqE "S" = false ∧
    apply_block eqS eqE ftA blkA ["ab"] ["S", "E", "S"] =
      some [" S #######", "    ab", " E #######",
            " S #######", "    ab", " E #######"] ∧
    ([" S #######", "    ab", " E #######",
      " S #######", "    ab", " E #######"] : List String) ≠
      [" S #######", "    ab", " E #######"] := by decide

/-- C4 amended: when the **first** start-matching line has no subsequent
end-matching line (and the renderer succeeds on the payload), the scanner
emits every pass-through line preceding the start marker and then the
rendered block exactly once, with no error. -/
theorem c4_unterminated_amended (reS reE : String → Bool) (ft : FileType)
    (b : Block) (lic A B : List String) (s : String) (bl : List String)
    (hA : ∀ a ∈ A, reS a = false) (hs : reS s = true)
    (hB : ∀ x ∈ B, reE x = false)
    (hgen : generate_block ft b lic = some bl) :
    apply_block reS reE ft b lic (A ++ s :: B) = some (A ++ bl) := by
  unfold apply_block
  rw [apply_go_pass reS reE _ A (s :: B) hA]
  simp only [apply_go, hs, if_true]
  rw [apply_go_drain reS reE _ B hB, hgen]
  rfl

/-- Witness for C4 amended at a concrete input. -/
theorem c4_unterminated_amended_witness :
    apply_block eqS eqE ftA blkA ["ab"] (["x"] ++ "S" :: ["y"]) =
      some (["x"] ++ [" S #######", "    ab", " E #######"]) :=
  c4_unterminated_amended eqS eqE ftA blkA ["ab"] ["x"] ["y"] "S"
    [" S #######", "    ab", " E #######"]
    (by decide) (by decide) (by decide) (by decide)

/-! ### Claim C7 -/

/-- Counterexample to C7 as stated: with a start pattern matching any line
beginning with `#` and an end pattern matching exactly `"E"`, the first run
replaces the block and keeps the tail, but a second run over that output
enters the block at the rendered first line, never finds an end marker, and
swallows the tail — the outputs differ. -/
theorem c7_idempotence_cex :
    apply_block reS7 reE7 ft7 blkA ["ab"] ["# x", "E", "tail"] =
      some ["# S ######", "ab", " E =======", "tail"] ∧
    apply_block reS7 reE7 ft7 blkA ["ab"]
        ["# S ######", "ab", " E =======", "tail"] =
      some ["# S ######", "ab", " E ======="] ∧
    (["# S ######", "ab", " E ======="] : List String) ≠
      ["# S ######", "ab", " E =======", "tail"] := by decide

/-- C7 amended: idempotence holds for a single well-formed block when the
patterns are compatible with the rendering — the rendered first line
matches the start pattern, the rendered last line (and only it) matches the
end pattern, and the surrounding lines match neither pattern they are
scanned against.  Both the first and the second run produce the same
output. -/
theorem c7_idempotence_amended (reS reE : String → Bool) (ft : FileType) (b : Block)
    (lic A M B : List String) (s e f l : String) (mids : List String)
    (hgen : generate_block ft b lic = some (f :: mids ++ [l]))
    (hA : ∀ a ∈ A, reS a = false) (hs : reS s = true)
    (hM : ∀ m ∈ M, reE m = false) (he : reE e = true)
    (hB : ∀ x ∈ B, reS x = false)
    (hf : reS f = true) (hmids : ∀ m ∈ mids, reE m = false) (hl : reE l = true) :
    apply_block reS reE ft b lic (A ++ s :: (M ++ e :: B)) =
      some (A ++ (f :: mids ++ [l]) ++ B) ∧
    apply_block reS reE ft b lic (A ++ (f :: mids ++ [l]) ++ B) =
      some (A ++ (f :: mids ++ [l]) ++ B) := by
  constructor
  · unfold apply_block
    rw [apply_go_pass reS reE _ A _ hA]
    simp only [apply_go, hs, if_true]
    rw [apply_go_consume reS reE _ M _ hM]
    simp only [apply_go, he, if_true]
    rw [apply_go_allpass reS reE _ B hB, hgen]
    simp
  · unfold apply_block
    have hshape : A ++ (f :: mids ++ [l]) ++ B = A ++ f :: (mids ++ l :: B) := by simp
    rw [hshape, apply_go_pass reS reE _ A _ hA]
    simp only [apply_go, hf, if_true]
    rw [apply_go_consume reS reE _ mids _ hmids]
    simp only [apply_go, hl, if_true]
    rw [apply_go_allpass reS reE _ B hB, hgen]
    simp

/-- Witness for C7 amended at a concrete input. -/
theorem c7_idempotence_amended_witness :
    apply_block reS7 reE7b ft7 blkA ["ab"]
        (["x"] ++ "# old" :: (["mm"] ++ " E old" :: ["y"])) =
      some (["x"] ++ ("# S ######" :: ["ab"] ++ [" E ======="]) ++ ["y"]) ∧
    apply_block reS7 reE7b ft7 blkA ["ab"]
        (["x"] ++ ("# S ######" :: ["ab"] ++ [" E ======="]) ++ ["y"]) =
      some (["x"] ++ ("# S ######" :: ["ab"] ++ [" E ======="]) ++ ["y"]) :=
  c7_idempotence_amended reS7 reE7b ft7 blkA ["ab"] ["x"] ["mm"] ["y"]
    "# old" " E old" "# S ######" " E =======" ["ab"]
    (by decide) (by decide) (by decide) (by decide) (by decide) (by decide)
    (by decide) (by decide) (by decide)

/-! ### Claim C1, counterexample -/

/-- Counterexample to C1 as stated: a centered middle line with an empty
`midline_end`.  The width is 10, the fixed parts total 2, so the filler is
8; the left gap receives `8 / 2 = 4` spaces, the remainder 4 is positive,
yet the right gap receives nothing because no end decoration exists, and
the rendered middle line is `"    ab"`, not `"    ab    "`. -/
theorem c1_centering_middle_cex :
    ftA.midline_center = true ∧
    determine_length ftA blkA ["ab"] = some 10 ∧
    midlineParts ftA 10 "ab" = ["", "    ", "ab", "", ""] ∧
    generate_block ftA blkA ["ab"] = some [" S #######", "    ab", " E #######"] ∧
    0 < 10 - (ftA.midline_start.length + ("ab" : String).length +
      ftA.midline_end.length) - ("    " : String).length := by decide

/-! ### Claim C8, counterexample -/

/-- Counterexample to C8 as stated: a centered first line with an odd
filler amount 7 gets a left gap of 3 and a right gap of 4, so
`leftGapLength - rightGapLength = -1`, which is not in `{0, 1}`. -/
theorem c8_center_invariant_cex :
    ftC.firstline_center = true ∧
    determine_length ftC blkA ["ab"] = some 10 ∧
    firstlineParts ftC blkA 10 = some ["", "###", " ", "S", " ", "####", ""] ∧
    generate_block ftC blkA ["ab"] = some ["### S ####", "    ab", " E #######"] ∧
    ¬ ((("###" : String).length : Int) - (("####" : String).length : Int) = 0 ∨
       (("###" : String).length : Int) - (("####" : String).length : Int) = 1) := by
  decide

/-! ### Claim C2, counterexample -/

/-- Counterexample to C2 as stated: with an empty `midline_end` the padding
lines collapse to `midline_start` alone and middle lines to
`midline_start + line`, both far below the resolved width 10, so not every
rendered line reaches the width computed by `determine_length`. -/
theorem c2_line_length_cex :
    determine_length ftB blkA ["ab"] = some 10 ∧
    generate_block ftB blkA ["ab"] = some [" S #######", "", "ab", "", " E #######"] ∧
    ¬ (∀ l ∈ ([" S #######", "", "ab", "", " E #######"] : List String),
        10 ≤ l.length) := by decide

/-! ### Line-width lemmas -/

theorem length_empty_str : ("" : String).length = 0 := rfl

theorem determine_length_cons (ft : FileType) (b : Block) (x : String)
    (xs : List String) :
    determine_length ft b (x :: xs) =
      some (max (max (max
        (ft.firstline_start.length + ft.firstline_end.length +
          ft.firstline_prepad.length + ft.firstline_postpad.length + b.start.length)
        (ft.midline_start.length + ft.midline_end.length +
          (xs.map String.length).foldl max x.length))
        (ft.lastline_start.length + ft.lastline_end.length +
          ft.lastline_prepad.length + ft.lastline_postpad.length + b.end_.length))
        ft.line_minlength) := rfl

theorem determine_length_bounds (ft : FileType) (b : Block) (lic : List String)
    (L : Nat) (h : determine_length ft b lic = some L) :
    (ft.firstline_start.length + ft.firstline_end.length + ft.firstline_prepad.length +
      ft.firstline_postpad.length + b.start.length ≤ L) ∧
    (ft.lastline_start.length + ft.lastline_end.length + ft.lastline_prepad.length +
      ft.lastline_postpad.length + b.end_.length ≤ L) ∧
    ft.line_minlength ≤ L ∧
    (ft.midline_start.length + ft.midline_end.length ≤ L) ∧
    (∀ line ∈ lic, ft.midline_start.length + line.length + ft.midline_end.length ≤ L) := by
  cases lic with
  | nil => cases h
  | cons x xs =>
    rw [determine_length_cons] at h
    have hL := Option.some.inj h
    set m := (xs.map String.length).foldl max x.length with hm
    have hfst : ft.firstline_start.length + ft.firstline_end.length +
        ft.firstline_prepad.length + ft.firstline_postpad.length + b.start.length ≤ L := by
      rw [← hL]
      exact le_trans (le_max_left _ _) (le_trans (le_max_left _ _) (le_max_left _ _))
    have hmidm : ft.midline_start.length + ft.midline_end.length + m ≤ L := by
      rw [← hL]
      exact le_trans (le_max_right _ _) (le_trans (le_max_left _ _) (le_max_left _ _))
    have hlst : ft.lastline_start.length + ft.lastline_end.length +
        ft.lastline_prepad.length + ft.lastline_postpad.length + b.end_.length ≤ L := by
      rw [← hL]
      exact le_trans (le_max_right _ _) (le_max_left _ _)
    refine ⟨hfst, hlst, ?_, by omega, ?_⟩
    · rw [← hL]
      exact le_max_right _ _
    · intro line hline
      have hlm : line.length ≤ m := by
        rcases List.mem_cons.mp hline with h1 | h1
        · subst h1
          exact foldl_max_init_le (xs.map String.length) line.length
        · exact foldl_max_mem_le (xs.map String.length) x.length line.length
            (List.mem_map_of_mem String.length h1)
      omega

theorem firstline_parts_sum (ft : FileType) (b : Block) :
    (List.map String.length
      [ft.firstline_start, "", ft.firstline_prepad, b.start, ft.firstline_postpad, "",
       ft.firstline_end]).sum =
      ft.firstline_start.length + ft.firstline_end.length + ft.firstline_prepad.length +
        ft.firstline_postpad.length + b.start.length := by
  simp only [List.map_cons, List.map_nil, List.sum_cons, List.sum_nil, length_empty_str]
  omega

theorem lastline_parts_sum (ft : FileType) (b : Block) :
    (List.map String.length
      [ft.lastline_start, "", ft.lastline_prepad, b.end_, ft.lastline_postpad, "",
       ft.lastline_end]).sum =
      ft.lastline_start.length + ft.lastline_end.length + ft.lastline_prepad.length +
        ft.lastline_postpad.length + b.end_.length := by
  simp only [List.map_cons, List.map_nil, List.sum_cons, List.sum_nil, length_empty_str]
  omega

theorem firstlineParts_length (ft : FileType) (b : Block) (L : Nat) (ps : List String)
    (hps : firstlineParts ft b L = some ps)
    (hle : ft.firstline_start.length + ft.firstline_end.length +
      ft.firstline_prepad.length + ft.firstline_postpad.length + b.start.length ≤ L) :
    (String.join ps).length = L := by
  simp only [firstlineParts] at hps
  split at hps
  case isTrue h =>
    split at hps
    case h_1 => cases hps
    case h_2 c cs hd =>
      have hps2 := Option.some.inj hps
      subst hps2
      rw [firstline_parts_sum] at h
      rw [length_join]
      simp only [firstline_parts_sum]
      simp only [List.map_cons, List.map_nil, List.sum_cons, List.sum_nil,
        length_empty_str]
      split_ifs <;> simp only [length_repChar, length_empty_str] <;> omega
  case isFalse h =>
    have hps2 := Option.some.inj hps
    subst hps2
    rw [firstline_parts_sum] at h
    rw [length_join, firstline_parts_sum]
    omega

theorem lastlineParts_length (ft : FileType) (b : Block) (L : Nat) (ps : List String)
    (hps : lastlineParts ft b L = some ps)
    (hle : ft.lastline_start.length + ft.lastline_end.length +
      ft.lastline_prepad.length + ft.lastline_postpad.length + b.end_.length ≤ L) :
    (String.join ps).length = L := by
  simp only [lastlineParts] at hps
  split at hps
  case isTrue h =>
    split at hps
    case h_1 => cases hps
    case h_2 c cs hd =>
      have hps2 := Option.some.inj hps
      subst hps2
      rw [lastline_parts_sum] at h
      rw [length_join]
      simp only [lastline_parts_sum]
      simp only [List.map_cons, List.map_nil, List.sum_cons, List.sum_nil,
        length_empty_str]
      split_ifs <;> simp only [length_repChar, length_empty_str] <;> omega
  case isFalse h =>
    have hps2 := Option.some.inj hps
    subst hps2
    rw [lastline_parts_sum] at h
    rw [length_join, lastline_parts_sum]
    omega

theorem padline_length (ft : FileType) (L : Nat)
    (hle : ft.midline_start.length + ft.midline_end.length ≤ L)
    (hme : ft.midline_end ≠ "") :
    (String.join (padlineParts ft L)).length = L := by
  have hme' : (ft.midline_end = "") = False := eq_false hme
  simp only [padlineParts, ne_eq, hme', not_false_eq_true, and_true]
  split_ifs with h1 <;>
    (rw [length_join]
     simp only [List.map_cons, List.map_nil, List.sum_cons, List.sum_nil,
       length_spaces, length_empty_str]) <;>
    omega

theorem midline_length (ft : FileType) (L : Nat) (line : String)
    (hle : ft.midline_start.length + line.length + ft.midline_end.length ≤ L)
    (hme : ft.midline_end ≠ "") :
    (String.join (midlineParts ft L line)).length = L := by
  have hme' : (ft.midline_end = "") = False := eq_false hme
  simp only [midlineParts, ne_eq, hme', not_false_eq_true, true_or, or_true,
    true_and, and_true]
  split_ifs with h1 h2 h3 h4 <;>
    (rw [length_join]
     simp only [List.map_cons, List.map_nil, List.sum_cons, List.sum_nil,
       length_spaces, length_empty_str]) <;>
    omega

theorem getLast?_of_concat {α : Type} (p : List α) (y : α) (q : List α)
    (h : q = p ++ [y]) : q.getLast? = some y := by
  subst h
  exact List.getLast?_concat p

theorem generate_block_eq (ft : FileType) (b : Block) (lic : List String) (L : Nat)
    (hL : determine_length ft b lic = some L) :
    generate_block ft b lic =
      match firstlineParts ft b L, lastlineParts ft b L with
      | some fl, some ll =>
        some ([String.join fl] ++
          List.replicate ft.line_padding (String.join (padlineParts ft L)) ++
          lic.map (fun line => String.join (midlineParts ft L line)) ++
          List.replicate ft.line_padding (String.join (padlineParts ft L)) ++
          [String.join ll])
      | _, _ => none := by
  unfold generate_block
  rw [hL]

/-! ### Claim C2, amended -/

/-- C2 amended: when `midline_end` is non-empty every rendered line reaches
the resolver width; the first and the last line are exactly that width
whenever the corresponding filler attribute is non-empty (middle and
padding lines with an empty `midline_end` may stay shorter, as the
counterexample shows). -/
theorem c2_line_length_amended (ft : FileType) (b : Block) (lic : List String)
    (out : List String) (L : Nat)
    (hL : determine_length ft b lic = some L)
    (hout : generate_block ft b lic = some out) :
    (ft.midline_end ≠ "" → ∀ l ∈ out, L ≤ l.length) ∧
    (ft.firstline_filler ≠ "" → ∃ l0 rest, out = l0 :: rest ∧ l0.length = L) ∧
    (ft.lastline_filler ≠ "" → ∃ lst, out.getLast? = some lst ∧ lst.length = L) := by
  obtain ⟨hb1, hb2, hb3, hb4, hb5⟩ := determine_length_bounds ft b lic L hL
  rw [generate_block_eq ft b lic L hL] at hout
  cases hfp : firstlineParts ft b L with
  | none =>
    rw [hfp] at hout
    cases hlp : lastlineParts ft b L <;> rw [hlp] at hout <;> cases hout
  | some fl =>
    rw [hfp] at hout
    cases hlp : lastlineParts ft b L with
    | none => rw [hlp] at hout; cases hout
    | some ll =>
      rw [hlp] at hout
      have hout2 := Option.some.inj hout
      have hjf : (String.join fl).length = L := firstlineParts_length ft b L fl hfp hb1
      have hjl : (String.join ll).length = L := lastlineParts_length ft b L ll hlp hb2
      refine ⟨?_, ?_, ?_⟩
      · intro hme l hl
        have hpadlen : (String.join (padlineParts ft L)).length = L :=
          padline_length ft L hb4 hme
        rw [← hout2] at hl
        simp only [List.mem_append, List.mem_cons, List.not_mem_nil, or_false,
          List.mem_replicate, List.mem_map] at hl
        rcases hl with (((rfl | ⟨-, rfl⟩) | ⟨x, hx, rfl⟩) | ⟨-, rfl⟩) | rfl
        · exact hjf.ge
        · exact hpadlen.ge
        · exact (midline_length ft L x (hb5 x hx) hme).ge
        · exact hpadlen.ge
        · exact hjl.ge
      · intro _
        exact ⟨String.join fl,
          List.replicate ft.line_padding (String.join (padlineParts ft L)) ++
            lic.map (fun line => String.join (midlineParts ft L line)) ++
            List.replicate ft.line_padding (String.join (padlineParts ft L)) ++
            [String.join ll],
          by rw [← hout2]; simp, hjf⟩
      · intro _
        refine ⟨String.join ll, getLast?_of_concat
          (String.join fl :: (List.replicate ft.line_padding (String.join (padlineParts ft L)) ++
            lic.map (fun line => String.join (midlineParts ft L line)) ++
            List.replicate ft.line_padding (String.join (padlineParts ft L))))
          (String.join ll) out ?_, hjl⟩
        rw [← hout2]
        simp

/-- Witness for C2 amended at a concrete triple. -/
theorem c2_line_length_amended_witness :
    (ftW.midline_end ≠ "" → ∀ l ∈ (["### S ####", "         |", "ab       |",
        "         |", "### E ####"] : List String), 10 ≤ l.length) ∧
    (ftW.firstline_filler ≠ "" → ∃ l0 rest, (["### S ####", "         |", "ab       |",
        "         |", "### E ####"] : List String) = l0 :: rest ∧ l0.length = 10) ∧
    (ftW.lastline_filler ≠ "" → ∃ lst, (["### S ####", "         |", "ab       |",
        "         |", "### E ####"] : List String).getLast? = some lst ∧
        lst.length = 10) :=
  c2_line_length_amended ftW blkA ["ab"]
    ["### S ####", "         |", "ab       |", "         |", "### E ####"] 10
    (by decide) (by decide)

/-! ### Gap-length lemmas -/

theorem firstlineParts_gaps (ft : FileType) (b : Block) (L : Nat)
    (hfil : ft.firstline_filler ≠ "")
    (h : ft.firstline_start.length + ft.firstline_end.length + ft.firstline_prepad.length +
      ft.firstline_postpad.length + b.start.length < L) :
    ∃ ps, firstlineParts ft b L = some ps ∧
      (List.map String.length ps)[1]? =
        some (if ft.firstline_center = true then
          (L - (ft.firstline_start.length + ft.firstline_end.length +
            ft.firstline_prepad.length + ft.firstline_postpad.length + b.start.length)) / 2
          else 0) ∧
      (List.map String.length ps)[5]? =
        some ((L - (ft.firstline_start.length + ft.firstline_end.length +
            ft.firstline_prepad.length + ft.firstline_postpad.length + b.start.length)) -
          (if ft.firstline_center = true then
            (L - (ft.firstline_start.length + ft.firstline_end.length +
              ft.firstline_prepad.length + ft.firstline_postpad.length + b.start.length)) / 2
            else 0)) := by
  cases hd : ft.firstline_filler.data with
  | nil => exact absurd (data_eq_nil hd) hfil
  | cons c cs =>
    simp only [firstlineParts, firstline_parts_sum]
    rw [if_pos h, hd]
    refine ⟨_, rfl, ?_, ?_⟩ <;>
      (split_ifs <;> simp_all [length_repChar, length_empty_str])

theorem lastlineParts_gaps (ft : FileType) (b : Block) (L : Nat)
    (hfil : ft.lastline_filler ≠ "")
    (h : ft.lastline_start.length + ft.lastline_end.length + ft.lastline_prepad.length +
      ft.lastline_postpad.length + b.end_.length < L) :
    ∃ ps, lastlineParts ft b L = some ps ∧
      (List.map String.length ps)[1]? =
        some (if ft.lastline_center = true then
          (L - (ft.lastline_start.length + ft.lastline_end.length +
            ft.lastline_prepad.length + ft.lastline_postpad.length + b.end_.length)) / 2
          else 0) ∧
      (List.map String.length ps)[5]? =
        some ((L - (ft.lastline_start.length + ft.lastline_end.length +
            ft.lastline_prepad.length + ft.lastline_postpad.length + b.end_.length)) -
          (if ft.lastline_center = true then
            (L - (ft.lastline_start.length + ft.lastline_end.length +
              ft.lastline_prepad.length + ft.lastline_postpad.length + b.end_.length)) / 2
            else 0)) := by
  cases hd : ft.lastline_filler.data with
  | nil => exact absurd (data_eq_nil hd) hfil
  | cons c cs =>
    simp only [lastlineParts, lastline_parts_sum]
    rw [if_pos h, hd]
    refine ⟨_, rfl, ?_, ?_⟩ <;>
      (split_ifs <;> simp_all [length_repChar, length_empty_str])

theorem midlineParts_gaps (ft : FileType) (L : Nat) (line : String)
    (h : ft.midline_start.length + line.length + ft.midline_end.length < L) :
    (List.map String.length (midlineParts ft L line))[1]? =
      some (if ft.midline_center = true ∧ (ft.midline_end ≠ "" ∨ line ≠ "") then
        (L - (ft.midline_start.length + line.length + ft.midline_end.length)) / 2
        else 0) ∧
    (List.map String.length (midlineParts ft L line))[3]? =
      some (if ft.midline_end ≠ "" then
        (L - (ft.midline_start.length + line.length + ft.midline_end.length)) -
          (if ft.midline_center = true ∧ (ft.midline_end ≠ "" ∨ line ≠ "") then
            (L - (ft.midline_start.length + line.length + ft.midline_end.length)) / 2
           else 0)
        else 0) := by
  constructor <;>
    (simp only [midlineParts]
     split_ifs <;>
       simp_all [length_spaces, length_empty_str])

/-! ### Claim C1, amended -/

/-- C1 amended: for the first and last roles the claim holds as stated —
with centering the left gap gets `floor(filler / 2)` fill characters and
the right gap the remainder, without centering all filler goes to the right
gap.  For the middle role the gaps follow the extra source conditions: the
left gap gets `floor(filler / 2)` spaces only when centering is enabled and
(`midline_end` or the content line is non-empty), and the right gap gets
the remainder (or, uncentered, all filler) only when `midline_end` is
non-empty; otherwise the gap receives nothing. -/
theorem c1_centering_split_amended (ft : FileType) (b : Block) (L : Nat) (line : String)
    (hfil : ft.firstline_filler ≠ "") (hlfil : ft.lastline_filler ≠ "") :
    (ft.firstline_start.length + ft.firstline_end.length + ft.firstline_prepad.length +
        ft.firstline_postpad.length + b.start.length < L →
      ∃ ps, firstlineParts ft b L = some ps ∧
        (List.map String.length ps)[1]? =
          some (if ft.firstline_center = true then
            (L - (ft.firstline_start.length + ft.firstline_end.length +
              ft.firstline_prepad.length + ft.firstline_postpad.length +
              b.start.length)) / 2 else 0) ∧
        (List.map String.length ps)[5]? =
          some ((L - (ft.firstline_start.length + ft.firstline_end.length +
              ft.firstline_prepad.length + ft.firstline_postpad.length +
              b.start.length)) -
            (if ft.firstline_center = true then
              (L - (ft.firstline_start.length + ft.firstline_end.length +
                ft.firstline_prepad.length + ft.firstline_postpad.length +
                b.start.length)) / 2 else 0))) ∧
    (ft.lastline_start.length + ft.lastline_end.length + ft.lastline_prepad.length +
        ft.lastline_postpad.length + b.end_.length < L →
      ∃ ps, lastlineParts ft b L = some ps ∧
        (List.map String.length ps)[1]? =
          some (if ft.lastline_center = true then
            (L - (ft.lastline_start.length + ft.lastline_end.length +
              ft.lastline_prepad.length + ft.lastline_postpad.length +
              b.end_.length)) / 2 else 0) ∧
        (List.map String.length ps)[5]? =
          some ((L - (ft.lastline_start.length + ft.lastline_end.length +
              ft.lastline_prepad.length + ft.lastline_postpad.length +
              b.end_.length)) -
            (if ft.lastline_center = true then
              (L - (ft.lastline_start.length + ft.lastline_end.length +
                ft.lastline_prepad.length + ft.lastline_postpad.length +
                b.end_.length)) / 2 else 0))) ∧
    (ft.midline_start.length + line.length + ft.midline_end.length < L →
      (List.map String.length (midlineParts ft L line))[1]? =
        some (if ft.midline_center = true ∧ (ft.midline_end ≠ "" ∨ line ≠ "") then
          (L - (ft.midline_start.length + line.length + ft.midline_end.length)) / 2
          else 0) ∧
      (List.map String.length (midlineParts ft L line))[3]? =
        some (if ft.midline_end ≠ "" then
          (L - (ft.midline_start.length + line.length + ft.midline_end.length)) -
            (if ft.midline_center = true ∧ (ft.midline_end ≠ "" ∨ line ≠ "") then
              (L - (ft.midline_start.length + line.length + ft.midline_end.length)) / 2
             else 0)
          else 0)) :=
  ⟨fun h => firstlineParts_gaps ft b L hfil h,
   fun h => lastlineParts_gaps ft b L hlfil h,
   fun h => midlineParts_gaps ft L line h⟩

/-- Witness for C1 amended at a concrete configuration. -/
theorem c1_centering_split_amended_witness :
    (ftA.firstline_start.length + ftA.firstline_end.length + ftA.firstline_prepad.length +
        ftA.firstline_postpad.length + blkA.start.length < 10 →
      ∃ ps, firstlineParts ftA blkA 10 = some ps ∧
        (List.map String.length ps)[1]? =
          some (if ftA.firstline_center = true then
            (10 - (ftA.firstline_start.length + ftA.firstline_end.length +
              ftA.firstline_prepad.length + ftA.firstline_postpad.length +
              blkA.start.length)) / 2 else 0) ∧
        (List.map String.length ps)[5]? =
          some ((10 - (ftA.firstline_start.length + ftA.firstline_end.length +
              ftA.firstline_prepad.length + ftA.firstline_postpad.length +
              blkA.start.length)) -
            (if ftA.firstline_center = true then
              (10 - (ftA.firstline_start.length + ftA.firstline_end.length +
                ftA.firstline_prepad.length + ftA.firstline_postpad.length +
                blkA.start.length)) / 2 else 0))) ∧
    (ftA.lastline_start.length + ftA.lastline_end.length + ftA.lastline_prepad.length +
        ftA.lastline_postpad.length + blkA.end_.length < 10 →
      ∃ ps, lastlineParts ftA blkA 10 = some ps ∧
        (List.map String.length ps)[1]? =
          some (if ftA.lastline_center = true then
            (10 - (ftA.lastline_start.length + ftA.lastline_end.length +
              ftA.lastline_prepad.length + ftA.lastline_postpad.length +
              blkA.end_.length)) / 2 else 0) ∧
        (List.map String.length ps)[5]? =
          some ((10 - (ftA.lastline_start.length + ftA.lastline_end.length +
              ftA.lastline_prepad.length + ftA.lastline_postpad.length +
              blkA.end_.length)) -
            (if ftA.lastline_center = true then
              (10 - (ftA.lastline_start.length + ftA.lastline_end.length +
                ftA.lastline_prepad.length + ftA.lastline_postpad.length +
                blkA.end_.length)) / 2 else 0))) ∧
    (ftA.midline_start.length + ("ab" : String).length + ftA.midline_end.length < 10 →
      (List.map String.length (midlineParts ftA 10 "ab"))[1]? =
        some (if ftA.midline_center = true ∧ (ftA.midline_end ≠ "" ∨ ("ab" : String) ≠ "") then
          (10 - (ftA.midline_start.length + ("ab" : String).length +
            ftA.midline_end.length)) / 2
          else 0) ∧
      (List.map String.length (midlineParts ftA 10 "ab"))[3]? =
        some (if ftA.midline_end ≠ "" then
          (10 - (ftA.midline_start.length + ("ab" : String).length +
            ftA.midline_end.length)) -
            (if ftA.midline_center = true ∧
                (ftA.midline_end ≠ "" ∨ ("ab" : String) ≠ "") then
              (10 - (ftA.midline_start.length + ("ab" : String).length +
                ftA.midline_end.length)) / 2
             else 0)
          else 0)) :=
  c1_centering_split_amended ftA blkA 10 "ab" (by decide) (by decide)

/-! ### Claim C8, amended -/

/-- C8 amended: for a centered first or last role (with a non-empty filler
attribute) and for a centered middle role with a non-empty `midline_end`,
the right gap receives at least as much filler as the left gap and at most
one character more: `rightGapLength - leftGapLength ∈ {0, 1}` — i.e. the
left gap gets the floor half and the right gap the remainder, the opposite
bias of the claim as stated. -/
theorem c8_center_invariant_amended (ft : FileType) (b : Block) (L : Nat) (line : String)
    (hfil : ft.firstline_filler ≠ "") (hlfil : ft.lastline_filler ≠ "") :
    (ft.firstline_center = true →
      ft.firstline_start.length + ft.firstline_end.length + ft.firstline_prepad.length +
        ft.firstline_postpad.length + b.start.length < L →
      ∃ ps, firstlineParts ft b L = some ps ∧
        ∃ lg rg, (List.map String.length ps)[1]? = some lg ∧
          (List.map String.length ps)[5]? = some rg ∧ lg ≤ rg ∧ rg ≤ lg + 1) ∧
    (ft.lastline_center = true →
      ft.lastline_start.length + ft.lastline_end.length + ft.lastline_prepad.length +
        ft.lastline_postpad.length + b.end_.length < L →
      ∃ ps, lastlineParts ft b L = some ps ∧
        ∃ lg rg, (List.map String.length ps)[1]? = some lg ∧
          (List.map String.length ps)[5]? = some rg ∧ lg ≤ rg ∧ rg ≤ lg + 1) ∧
    (ft.midline_center = true → ft.midline_end ≠ "" →
      ft.midline_start.length + line.length + ft.midline_end.length < L →
      ∃ lg rg, (List.map String.length (midlineParts ft L line))[1]? = some lg ∧
        (List.map String.length (midlineParts ft L line))[3]? = some rg ∧
        lg ≤ rg ∧ rg ≤ lg + 1) := by
  refine ⟨?_, ?_, ?_⟩
  · intro hc h
    obtain ⟨ps, hps, h1, h5⟩ := firstlineParts_gaps ft b L hfil h
    rw [if_pos hc] at h1 h5
    exact ⟨ps, hps, _, _, h1, h5, by omega, by omega⟩
  · intro hc h
    obtain ⟨ps, hps, h1, h5⟩ := lastlineParts_gaps ft b L hlfil h
    rw [if_pos hc] at h1 h5
    exact ⟨ps, hps, _, _, h1, h5, by omega, by omega⟩
  · intro hc hme h
    obtain ⟨h1, h3⟩ := midlineParts_gaps ft L line h
    have hcnd : ft.midline_center = true ∧ (ft.midline_end ≠ "" ∨ line ≠ "") :=
      ⟨hc, Or.inl hme⟩
    rw [if_pos hcnd] at h1
    rw [if_pos hme, if_pos hcnd] at h3
    exact ⟨_, _, h1, h3, by omega, by omega⟩

/-- Witness for C8 amended at a concrete configuration. -/
theorem c8_center_invariant_amended_witness :
    (ftW.firstline_center = true →
      ftW.firstline_start.length + ftW.firstline_end.length + ftW.firstline_prepad.length +
        ftW.firstline_postpad.length + blkA.start.length < 10 →
      ∃ ps, firstlineParts ftW blkA 10 = some ps ∧
        ∃ lg rg, (List.map String.length ps)[1]? = some lg ∧
          (List.map String.length ps)[5]? = some rg ∧ lg ≤ rg ∧ rg ≤ lg + 1) ∧
    (ftW.lastline_center = true →
      ftW.lastline_start.length + ftW.lastline_end.length + ftW.lastline_prepad.length +
        ftW.lastline_postpad.length + blkA.end_.length < 10 →
      ∃ ps, lastlineParts ftW blkA 10 = some ps ∧
        ∃ lg rg, (List.map String.length ps)[1]? = some lg ∧
          (List.map String.length ps)[5]? = some rg ∧ lg ≤ rg ∧ rg ≤ lg + 1) ∧
    (ftW.midline_center = true → ftW.midline_end ≠ "" →
      ftW.midline_start.length + ("ab" : String).length + ftW.midline_end.length < 10 →
      ∃ lg rg, (List.map String.length (midlineParts ftW 10 "ab"))[1]? = some lg ∧
        (List.map String.length (midlineParts ftW 10 "ab"))[3]? = some rg ∧
        lg ≤ rg ∧ rg ≤ lg + 1) :=
  c8_center_invariant_amended ftW blkA 10 "ab" (by decide) (by decide)

end Updblock
